import Mathlib

set_option maxRecDepth 20000

/- Shallow embedding of the SSML validation engine (src/src/validator.js,
   class SSMLValidator).  JavaScript strings are modelled as lists of
   characters; each JavaScript regular expression is translated into an
   explicit left-to-right scanner with the same leftmost-match semantics:
   at every position the scanner attempts a match, emits it and resumes
   after its end on success, and advances one character on failure. -/

/-- Character class of the tag-name capture group: ASCII letters, colon
    and hyphen. -/
def nameChar (c : Char) : Bool := c.isAlpha || c == ':' || c == '-'

/-- Character class of the attribute-name capture group: word characters
    and hyphen. -/
def attrNameChar (c : Char) : Bool := c.isAlpha || c.isDigit || c == '_' || c == '-'

/-- Split a character list at the first occurrence of a stop character:
    the characters strictly before it and the rest strictly after it.
    Models a greedy run of non-stop characters followed by the stop
    character itself. -/
def splitAtChar (stop : Char) : List Char → Option (List Char × List Char)
  | [] => none
  | c :: cs =>
    if c = stop then some ([], cs)
    else
      match splitAtChar stop cs with
      | none => none
      | some (mid, rest) => some (c :: mid, rest)

/-- Does the list start with the given pattern (String.prototype.startsWith). -/
def listStartsWith (pat l : List Char) : Bool := pat.isPrefixOf l

/-- Does the list end with the given pattern (String.prototype.endsWith). -/
def listEndsWith (pat l : List Char) : Bool := pat.reverse.isPrefixOf l.reverse

/-- Does the pattern occur as a contiguous substring (String.prototype.includes). -/
def containsSub (pat : List Char) : List Char → Bool
  | [] => pat.isEmpty
  | c :: rest => pat.isPrefixOf (c :: rest) || containsSub pat rest

/-- Whitespace characters removed by String.prototype.trim (the ASCII
    subset, which covers every input of interest here). -/
def jsSpace (c : Char) : Bool :=
  c == ' ' || c == '\t' || c == '\n' || c == '\r' || c == '\x0b' || c == '\x0c'

/-- String.prototype.trim on a character list. -/
def trimChars (cs : List Char) : List Char :=
  ((cs.dropWhile jsSpace).reverse.dropWhile jsSpace).reverse

/-- Global regex scan (RegExp.prototype.exec in a loop with the g flag):
    at each position try the matcher; on success emit the result and
    resume after the match, on failure advance one character.  The fuel
    argument is instantiated with the length of the scanned text, which
    bounds the number of iterations because every step consumes at least
    one character. -/
def scanMatches {α : Type} (m : List Char → Option (α × List Char)) :
    Nat → List Char → List α
  | 0, _ => []
  | _ + 1, [] => []
  | fuel + 1, c :: rest =>
    match m (c :: rest) with
    | some (a, rest2) => a :: scanMatches m fuel rest2
    | none => scanMatches m fuel rest

/-- A tag token matched by the structural tokenizer, with the text of the
    whole match and the captured tag name. -/
structure Tag where
  full : List Char
  name : List Char
deriving DecidableEq, Repr

/-- One attempt of the structural tag pattern (an angle bracket, an
    optional slash, one or more name characters, a greedy run of
    non-closing characters, a closing angle bracket) at one position. -/
def matchStructTagAt : List Char → Option (Tag × List Char)
  | '<' :: cs =>
    let (slashPart, cs1) : List Char × List Char :=
      match cs with
      | '/' :: r => (['/'], r)
      | _ => ([], cs)
    let nm := cs1.takeWhile nameChar
    let cs2 := cs1.dropWhile nameChar
    if nm = [] then none
    else
      match splitAtChar '>' cs2 with
      | none => none
      | some (mid, rest) =>
        some ({ full := '<' :: (slashPart ++ nm ++ mid ++ ['>']), name := nm }, rest)
  | _ => none

/-- All structural tag tokens of a document, in order. -/
def structTokens (cs : List Char) : List Tag := scanMatches matchStructTagAt cs.length cs

/-- A tag token matched by the schema-pass tokenizer, which has no slash
    alternative and captures the attribute text separately. -/
structure STag where
  full : List Char
  name : List Char
  attrs : List Char
deriving DecidableEq, Repr

/-- One attempt of the schema-pass tag pattern at one position. -/
def matchSsmlTagAt : List Char → Option (STag × List Char)
  | '<' :: cs =>
    let nm := cs.takeWhile nameChar
    let cs2 := cs.dropWhile nameChar
    if nm = [] then none
    else
      match splitAtChar '>' cs2 with
      | none => none
      | some (mid, rest) =>
        some ({ full := '<' :: (nm ++ mid ++ ['>']), name := nm, attrs := mid }, rest)
  | _ => none

/-- All schema-pass tag tokens of a document, in order. -/
def ssmlTokens (cs : List Char) : List STag := scanMatches matchSsmlTagAt cs.length cs

/-- One attempt of the attribute pattern (a run of word characters, an
    equals sign, a double-quoted value) at one position. -/
def matchAttrAt (cs : List Char) : Option ((List Char × List Char) × List Char) :=
  let nm := cs.takeWhile attrNameChar
  let cs1 := cs.dropWhile attrNameChar
  if nm = [] then none
  else
    match cs1 with
    | '=' :: '"' :: cs2 =>
      match splitAtChar '"' cs2 with
      | none => none
      | some (v, rest) => some ((nm, v), rest)
    | _ => none

/-- All parsed attribute name-value pairs of an attribute text, in order. -/
def attrPairs (cs : List Char) : List (List Char × List Char) :=
  scanMatches matchAttrAt cs.length cs

/-- Strip one or more leading digits, failing if there is none. -/
def digitRun (cs : List Char) : Option (List Char) :=
  let ds := cs.takeWhile Char.isDigit
  if ds = [] then none else some (cs.dropWhile Char.isDigit)

/-- Optional fractional part: a dot followed by one or more digits, else
    the input is left untouched. -/
def fracTail (cs : List Char) : List Char :=
  match cs with
  | '.' :: r =>
    match digitRun r with
    | some rest => rest
    | none => '.' :: r
  | _ => cs

/-- The five anchored numeric value patterns of the attribute table. -/
inductive Pat where
  | timePat
  | percentPat
  | signedPercentPat
  | signedHzPat
  | signedDbPat
deriving DecidableEq, Repr

/-- Digits, an optional fraction, then exactly one of the given suffix
    alternatives up to the end of the value. -/
def coreTest (suffixes : List (List Char)) (cs : List Char) : Bool :=
  match digitRun cs with
  | none => false
  | some r => suffixes.contains (fracTail r)

/-- A mandatory sign followed by the unsigned numeric pattern. -/
def signedTest (suffixes : List (List Char)) (cs : List Char) : Bool :=
  match cs with
  | [] => false
  | c :: r => (c == '+' || c == '-') && coreTest suffixes r

/-- Anchored full-value test of each pattern. -/
def Pat.test : Pat → List Char → Bool
  | .timePat, cs => coreTest ["ms".data, "s".data] cs
  | .percentPat, cs => coreTest ["%".data] cs
  | .signedPercentPat, cs => signedTest ["%".data] cs
  | .signedHzPat, cs => signedTest ["Hz".data] cs
  | .signedDbPat, cs => signedTest ["dB".data] cs

/-- One alternative of an attribute value constraint: a literal legal
    value or a pattern. -/
inductive VOpt where
  | lit (s : String)
  | re (p : Pat)
deriving DecidableEq, Repr

/-- An attribute constraint: either a list of alternatives or a single
    bare pattern. -/
inductive Constraint where
  | options (os : List VOpt)
  | single (p : Pat)
deriving DecidableEq, Repr

/-- The alternatives of a constraint, viewing a bare pattern as a
    one-alternative list. -/
def Constraint.alts : Constraint → List VOpt
  | .options os => os
  | .single p => [.re p]

/-- Does one alternative accept a value: literal equality for a literal,
    anchored pattern test for a pattern. -/
def optMatches (o : VOpt) (v : List Char) : Bool :=
  match o with
  | .lit s => s.data == v
  | .re p => p.test v

/-- Acceptance of a value by a constraint, translating the loop with
    early exit over an array of alternatives and the direct test of a
    bare pattern. -/
def isValidValue (c : Constraint) (v : List Char) : Bool :=
  match c with
  | .options os => os.any (fun o => optMatches o v)
  | .single p => p.test v

/-- The supported-tag set of the schema table. -/
def supportedTags : List String :=
  ["speak", "break", "emphasis", "lang", "mark", "p", "s", "phoneme",
   "prosody", "say-as", "sub", "voice", "audio", "lexicon",
   "amazon:breath", "amazon:auto-breaths", "amazon:effect"]

/-- The required-attribute table; tags absent from the table map to the
    empty list (the table has no empty entries, so absence and emptiness
    coincide). -/
def requiredAttributes (tag : String) : List String :=
  match tag with
  | "phoneme" => ["alphabet", "ph"]
  | "say-as" => ["interpret-as"]
  | "sub" => ["alias"]
  | "voice" => ["name"]
  | "audio" => ["src"]
  | "lexicon" => ["name"]
  | _ => []

/-- Whether a tag has an entry in the attribute-value table at all (the
    early return of the attribute-value check). -/
def hasValueTable (tag : String) : Bool :=
  match tag with
  | "break" | "emphasis" | "prosody" | "say-as" | "phoneme"
  | "amazon:breath" | "amazon:auto-breaths" | "amazon:effect" => true
  | _ => false

/-- The attribute-value constraint table. -/
def attrConstraint (tag attr : String) : Option Constraint :=
  match tag, attr with
  | "break", "strength" =>
      some (.options [.lit "none", .lit "x-weak", .lit "weak", .lit "medium",
                      .lit "strong", .lit "x-strong"])
  | "break", "time" => some (.single .timePat)
  | "emphasis", "level" =>
      some (.options [.lit "strong", .lit "moderate", .lit "reduced"])
  | "prosody", "rate" =>
      some (.options [.lit "x-slow", .lit "slow", .lit "medium", .lit "fast",
                      .lit "x-fast", .re .percentPat, .re .signedPercentPat])
  | "prosody", "pitch" =>
      some (.options [.lit "x-low", .lit "low", .lit "medium", .lit "high",
                      .lit "x-high", .re .signedHzPat, .re .signedPercentPat])
  | "prosody", "volume" =>
      some (.options [.lit "silent", .lit "x-soft", .lit "soft", .lit "medium",
                      .lit "loud", .lit "x-loud", .re .signedDbPat])
  | "say-as", "interpret-as" =>
      some (.options [.lit "characters", .lit "spell-out", .lit "cardinal",
                      .lit "number", .lit "ordinal", .lit "digits",
                      .lit "fraction", .lit "unit", .lit "date", .lit "time",
                      .lit "telephone", .lit "address", .lit "interjection",
                      .lit "expletive"])
  | "phoneme", "alphabet" => some (.options [.lit "ipa", .lit "x-sampa"])
  | "amazon:breath", "duration" =>
      some (.options [.lit "default", .lit "x-short", .lit "short",
                      .lit "medium", .lit "long", .lit "x-long"])
  | "amazon:auto-breaths", "volume" =>
      some (.options [.lit "default", .lit "x-soft", .lit "soft", .lit "medium",
                      .lit "loud", .lit "x-loud"])
  | "amazon:auto-breaths", "frequency" =>
      some (.options [.lit "default", .lit "x-low", .lit "low", .lit "medium",
                      .lit "high", .lit "x-high"])
  | "amazon:auto-breaths", "duration" =>
      some (.options [.lit "default", .lit "x-short", .lit "short",
                      .lit "medium", .lit "long", .lit "x-long"])
  | "amazon:effect", "name" => some (.options [.lit "whispered"])
  | _, _ => none

/-- Error and warning message templates, verbatim from the source. -/
def startMsg : String := "SSML must start with <speak> tag"

def endMsg : String := "SSML must end with </speak> tag"

def unbalancedMsg : String := "Unbalanced <speak> tags"

def multipleMsg : String := "Multiple <speak> tags found - only one is allowed"

def unexpectedClosingMsg (full : List Char) : String :=
  "Unexpected closing tag: " ++ String.mk full

def mismatchedMsg (lastTag full : List Char) : String :=
  "Mismatched tags: expected </" ++ String.mk lastTag ++ ">, found " ++ String.mk full

def unclosedMsg (openTags : List (List Char)) : String :=
  "Unclosed tags: " ++ String.intercalate ", " (openTags.map (fun t => "<" ++ String.mk t ++ ">"))

def unsupportedMsg (nm : List Char) : String :=
  "Unsupported tag: <" ++ String.mk nm ++ ">"

def missingAttrMsg (attr : String) (nm : List Char) : String :=
  "Missing required attribute \x27" ++ attr ++ "\x27 for tag <" ++ String.mk nm ++ ">"

def invalidValueMsg (v a nm : List Char) : String :=
  "Invalid value \x27" ++ String.mk v ++ "\x27 for attribute \x27" ++ String.mk a ++
    "\x27 in tag <" ++ String.mk nm ++ ">"

def longSegmentMsg : String :=
  "Long text segment without breaks - consider adding pauses for better speech flow"

def deepNestingMsg : String :=
  "Deep tag nesting detected - consider simplifying structure"

def emptyTagsMsg : String :=
  "Empty tags detected - consider removing or adding content"

/-- One attempt of the opening-root pattern (the literal root opener, a
    greedy run of non-closing characters, the closing angle bracket). -/
def matchOpenSpeakAt (cs : List Char) : Option (Unit × List Char) :=
  if listStartsWith "<speak".data cs then
    match splitAtChar '>' (cs.drop 6) with
    | none => none
    | some (_, rest) => some ((), rest)
  else none

/-- One attempt of the literal closing-root pattern. -/
def matchCloseSpeakAt (cs : List Char) : Option (Unit × List Char) :=
  if listStartsWith "</speak>".data cs then some ((), cs.drop 8) else none

/-- Number of opening-root matches in the whole document. -/
def speakOpenCount (cs : List Char) : Nat :=
  (scanMatches matchOpenSpeakAt cs.length cs).length

/-- Number of closing-root matches in the whole document. -/
def speakCloseCount (cs : List Char) : Nat :=
  (scanMatches matchCloseSpeakAt cs.length cs).length

/-- Pass 1, the root-structure check. -/
def basicStructureErrors (cs : List Char) : List String :=
  let trimmed := trimChars cs
  (if listStartsWith "<speak".data trimmed then [] else [startMsg]) ++
  (if listEndsWith "</speak>".data trimmed then [] else [endMsg]) ++
  (if speakOpenCount cs = speakCloseCount cs then [] else [unbalancedMsg]) ++
  (if speakOpenCount cs > 1 then [multipleMsg] else [])

/-- Pass 2, the stack-based well-formedness loop over the structural
    tokens.  The stack grows at the head, so the first-pushed name is the
    last element; the unclosed-tags message lists names in push order. -/
def xmlLoop : List Tag → List (List Char) → List String
  | [], stack => if stack = [] then [] else [unclosedMsg stack.reverse]
  | t :: ts, stack =>
    if containsSub "/>".data t.full && !listStartsWith "</".data t.full then
      xmlLoop ts stack
    else if listStartsWith "</".data t.full then
      match stack with
      | [] => unexpectedClosingMsg t.full :: xmlLoop ts []
      | lastTag :: stack2 =>
        if lastTag = t.name then xmlLoop ts stack2
        else mismatchedMsg lastTag t.full :: xmlLoop ts stack2
    else xmlLoop ts (t.name :: stack)

/-- Pass 2 applied to a document. -/
def xmlStructureErrors (cs : List Char) : List String := xmlLoop (structTokens cs) []

/-- The set of attribute names parsed from an attribute text. -/
def foundAttrNames (attrs : List Char) : List (List Char) :=
  (attrPairs attrs).map Prod.fst

/-- Required-attribute errors of one schema-pass token: skipped when the
    tag has no required attributes or the token is self-closing, else one
    error per required attribute missing from the parsed pairs. -/
def requiredAttrErrors (t : STag) : List String :=
  if requiredAttributes (String.mk t.name) = [] then []
  else if containsSub "/>".data t.full then []
  else
    (requiredAttributes (String.mk t.name)).foldl
      (fun es a =>
        if a.data ∈ foundAttrNames t.attrs then es else es ++ [missingAttrMsg a t.name])
      []

/-- Attribute-value errors of one parsed pair: nothing without a
    constraint, else an error exactly when the constraint rejects. -/
def attrPairErrors (nm : List Char) (pr : List Char × List Char) : List String :=
  match attrConstraint (String.mk nm) (String.mk pr.1) with
  | none => []
  | some c => if isValidValue c pr.2 then [] else [invalidValueMsg pr.2 pr.1 nm]

/-- Attribute-value errors of one token: the early return when the tag
    has no value table, else the loop over the parsed pairs. -/
def attrValueErrors (nm : List Char) (attrs : List Char) : List String :=
  if hasValueTable (String.mk nm) then
    (attrPairs attrs).foldl (fun es pr => es ++ attrPairErrors nm pr) []
  else []

/-- Pass 3 on one token: the (unreachable for real tokens) skip of
    closing tags, the unsupported-tag warning with no further checks, and
    for supported tags the required-attribute and attribute-value errors.
    Returns the token's errors and warnings. -/
def ssmlTagChecks (t : STag) : List String × List String :=
  if listStartsWith "</".data t.full then ([], [])
  else if supportedTags.contains (String.mk t.name) then
    (requiredAttrErrors t ++ attrValueErrors t.name t.attrs, [])
  else ([], [unsupportedMsg t.name])

/-- Pass 3 errors of a document, in token order. -/
def ssmlTagsErrors (cs : List Char) : List String :=
  ((ssmlTokens cs).map (fun t => (ssmlTagChecks t).1)).flatten

/-- Pass 3 warnings of a document, in token order. -/
def ssmlTagsWarnings (cs : List Char) : List String :=
  ((ssmlTokens cs).map (fun t => (ssmlTagChecks t).2)).flatten

/-- Tag-stripping replacement: every angle-bracketed token is removed,
    an opening bracket with no later closing bracket is kept. -/
def stripTags : Nat → List Char → List Char
  | 0, cs => cs
  | _ + 1, [] => []
  | fuel + 1, c :: rest =>
    if c = '<' then
      match splitAtChar '>' rest with
      | some (_, rest2) => stripTags fuel rest2
      | none => c :: stripTags fuel rest
    else c :: stripTags fuel rest

/-- The document text with all tag tokens stripped. -/
def textContent (cs : List Char) : List Char := stripTags cs.length cs

/-- One attempt of the bare tag-token pattern used by the metrics pass. -/
def matchAnyTagAt : List Char → Option (Unit × List Char)
  | '<' :: rest =>
    match splitAtChar '>' rest with
    | none => none
    | some (_, rest2) => some ((), rest2)
  | _ => none

/-- Total number of tag tokens of the metrics pass. -/
def tagCount (cs : List Char) : Nat := (scanMatches matchAnyTagAt cs.length cs).length

/-- The info metrics of the report.  The floating-point cost estimate is
    a linear presentation-level rescaling of the character count and is
    not modelled. -/
structure Info where
  characterCount : Nat
  tagCount : Nat
deriving DecidableEq, Repr

/-- One attempt of the break-tag pattern the long-segment heuristic
    splits on. -/
def matchBreakTagAt (cs : List Char) : Option (Unit × List Char) :=
  if listStartsWith "<break".data cs then
    match splitAtChar '>' (cs.drop 6) with
    | none => none
    | some (_, rest) => some ((), rest)
  else none

/-- String.prototype.split on the break-tag pattern: the segments
    between consecutive matches. -/
def splitOnBreaks : Nat → List Char → List (List Char)
  | 0, cs => [cs]
  | _ + 1, [] => [[]]
  | fuel + 1, c :: rest =>
    match matchBreakTagAt (c :: rest) with
    | some (_, rest2) => [] :: splitOnBreaks fuel rest2
    | none =>
      match splitOnBreaks fuel rest with
      | [] => [[c]]
      | seg :: segs => (c :: seg) :: segs

/-- The depth-replay loop of the nesting heuristic: self-closing tokens
    (by a suffix test here) are ignored, closing tokens decrement, opening
    tokens increment and update the running maximum. -/
def maxNestAux : List Tag → Int → Int → Int
  | [], _, m => m
  | t :: ts, d, m =>
    if listEndsWith "/>".data t.full then maxNestAux ts d m
    else if listStartsWith "</".data t.full then maxNestAux ts (d - 1) m
    else maxNestAux ts (d + 1) (max m (d + 1))

/-- Maximum nesting depth of a document. -/
def getMaxNesting (cs : List Char) : Int := maxNestAux (structTokens cs) 0 0

/-- Pass 4 heuristic warnings: one long-segment warning when any
    break-separated segment strips to more than 500 characters, the
    deep-nesting warning when the maximum depth exceeds 5, and the
    empty-tags warning when the two adjacent brackets occur anywhere. -/
def commonIssueWarnings (cs : List Char) : List String :=
  (if (splitOnBreaks cs.length cs).any (fun seg => 500 < (textContent seg).length)
    then [longSegmentMsg] else []) ++
  (if 5 < getMaxNesting cs then [deepNestingMsg] else []) ++
  (if containsSub "><".data cs then [emptyTagsMsg] else [])

/-- The validation report.  The errors list is append-only across the
    passes and the validity flag is recomputed from its final length. -/
structure Report where
  valid : Bool
  errors : List String
  warnings : List String
  info : Info
deriving DecidableEq, Repr

/-- The entry point: all passes always run over the same input and their
    emissions are concatenated in pass order.  None of the translated
    operations can raise, so the catch branch of the source is
    unreachable and adds nothing here. -/
def validate (ssml : String) : Report :=
  let cs := ssml.data
  let errors := basicStructureErrors cs ++ xmlStructureErrors cs ++ ssmlTagsErrors cs
  { valid := errors.length == 0
    errors := errors
    warnings := ssmlTagsWarnings cs ++ commonIssueWarnings cs
    info := { characterCount := (textContent cs).length, tagCount := tagCount cs } }

/-- The worked example document of the specification. -/
def exampleDoc : String := "<speak>Hello <emphasis level=\"strong\">world</emphasis>!</speak>"

/-- The unterminated-document example. -/
def unterminatedDoc : String := "<speak>unterminated"

/-- The unknown-tag example document. -/
def badtagDoc : String := "<speak><badtag>x</badtag></speak>"

/-- The bad-attribute-value example document. -/
def breakInvalidDoc : String := "<speak><break strength=\"invalid-value\"/></speak>"

/-- A document of six nested levels of supported tags. -/
def deepDoc6 : String := "<speak><p><s><p><s><p>x</p></s></p></s></p></speak>"

/-- A document of five nested levels of supported tags. -/
def deepDoc5 : String := "<speak><p><s><p><s>x</s></p></s></p></speak>"

/-- A document whose first tag name merely begins with the root name. -/
def speakerDoc : String := "<speaker>hi</speaker>"

/-- Appending strings appends their character data. -/
theorem string_data_append (a b : String) : (a ++ b).data = a.data ++ b.data := by
  cases a; cases b; rfl

/-- Strings with different first characters are different. -/
theorem string_ne_of_head (a b : String) (h : a.data.head? ≠ b.data.head?) : a ≠ b := by
  intro he
  exact h (by rw [he])

/-- A boolean length test agrees with the emptiness test. -/
theorem length_beq_zero_eq_isEmpty {α : Type} (l : List α) : (l.length == 0) = l.isEmpty := by
  cases l <;> rfl

/-- The message templates with a parameter all keep their fixed first
    character. -/
theorem head_unexpectedClosingMsg (full : List Char) :
    (unexpectedClosingMsg full).data.head? = some 'U' := rfl

theorem head_mismatchedMsg (a b : List Char) :
    (mismatchedMsg a b).data.head? = some 'M' := rfl

theorem head_unclosedMsg (l : List (List Char)) :
    (unclosedMsg l).data.head? = some 'U' := rfl

theorem head_unsupportedMsg (nm : List Char) :
    (unsupportedMsg nm).data.head? = some 'U' := rfl

theorem head_missingAttrMsg (a : String) (nm : List Char) :
    (missingAttrMsg a nm).data.head? = some 'M' := rfl

theorem head_invalidValueMsg (v a nm : List Char) :
    (invalidValueMsg v a nm).data.head? = some 'I' := rfl

theorem unexpected_ne_start (full : List Char) : unexpectedClosingMsg full ≠ startMsg :=
  string_ne_of_head _ _ (by rw [head_unexpectedClosingMsg]; decide)

theorem mismatched_ne_start (a b : List Char) : mismatchedMsg a b ≠ startMsg :=
  string_ne_of_head _ _ (by rw [head_mismatchedMsg]; decide)

theorem unclosed_ne_start (l : List (List Char)) : unclosedMsg l ≠ startMsg :=
  string_ne_of_head _ _ (by rw [head_unclosedMsg]; decide)

theorem missing_ne_start (a : String) (nm : List Char) : missingAttrMsg a nm ≠ startMsg :=
  string_ne_of_head _ _ (by rw [head_missingAttrMsg]; decide)

theorem invalid_ne_start (v a nm : List Char) : invalidValueMsg v a nm ≠ startMsg :=
  string_ne_of_head _ _ (by rw [head_invalidValueMsg]; decide)

theorem unsupported_ne_deep (nm : List Char) : unsupportedMsg nm ≠ deepNestingMsg :=
  string_ne_of_head _ _ (by rw [head_unsupportedMsg]; decide)

/-- A fold that conditionally appends one element per item is the map of
    the filtered items after the accumulator. -/
theorem foldl_if_push {α β : Type} (p : α → Prop) [DecidablePred p] (f : α → β) :
    ∀ (l : List α) (acc : List β),
      l.foldl (fun es a => if p a then es else es ++ [f a]) acc
        = acc ++ (l.filter (fun a => !(decide (p a)))).map f := by
  intro l
  induction l with
  | nil => intro acc; simp
  | cons a l ih =>
    intro acc
    by_cases h : p a <;>
      simp [List.foldl_cons, List.filter_cons, h, ih, List.append_assoc]

/-- A fold that appends a block per item is the flattened map after the
    accumulator. -/
theorem foldl_append_acc {α β : Type} (g : α → List β) :
    ∀ (l : List α) (acc : List β),
      l.foldl (fun es a => es ++ g a) acc = acc ++ (l.map g).flatten := by
  intro l
  induction l with
  | nil => intro acc; simp
  | cons a l ih => intro acc; simp [List.foldl_cons, ih, List.append_assoc]

/-- A self-closing token produces no required-attribute error. -/
theorem requiredAttrErrors_selfclosing (t : STag)
    (h : containsSub "/>".data t.full = true) : requiredAttrErrors t = [] := by
  unfold requiredAttrErrors
  split
  · rfl
  · simp [h]

/-- For a non-self-closing token the required-attribute errors are one
    message per required attribute absent from the parsed pairs, in table
    order. -/
theorem requiredAttrErrors_eq (t : STag)
    (h : containsSub "/>".data t.full = false) :
    requiredAttrErrors t
      = ((requiredAttributes (String.mk t.name)).filter
           (fun a => !(decide (a.data ∈ foundAttrNames t.attrs)))).map
          (fun a => missingAttrMsg a t.name) := by
  unfold requiredAttrErrors
  split
  · next hreq => rw [hreq]; rfl
  · simp only [h, Bool.false_eq_true, if_false]
    rw [foldl_if_push (fun a => a.data ∈ foundAttrNames t.attrs)
      (fun a => missingAttrMsg a t.name)]
    simp

/-- The attribute-value loop is the flattened per-pair error blocks when
    the tag has a value table, and empty otherwise. -/
theorem attrValueErrors_eq (nm attrs : List Char) :
    attrValueErrors nm attrs
      = if hasValueTable (String.mk nm)
          then ((attrPairs attrs).map (attrPairErrors nm)).flatten
          else [] := by
  unfold attrValueErrors
  split
  · rw [foldl_append_acc]; simp
  · next h => simp [h]

/-- Every per-pair attribute-value error is the invalid-value message of
    that pair. -/
theorem attrPairErrors_shape (nm : List Char) (pr : List Char × List Char)
    (e : String) (he : e ∈ attrPairErrors nm pr) :
    e = invalidValueMsg pr.2 pr.1 nm := by
  unfold attrPairErrors at he
  split at he
  · simp at he
  · split at he
    · simp at he
    · simp at he
      exact he

/-- Every error of one schema-pass token is a missing-attribute or an
    invalid-value message naming that token. -/
theorem ssmlTagChecks_errors_shape (t : STag) (e : String)
    (he : e ∈ (ssmlTagChecks t).1) :
    (∃ a, e = missingAttrMsg a t.name) ∨ ∃ v a, e = invalidValueMsg v a t.name := by
  unfold ssmlTagChecks at he
  split at he
  · simp at he
  · split at he
    · simp only [List.mem_append] at he
      rcases he with he | he
      · left
        by_cases hsc : containsSub "/>".data t.full = true
        · rw [requiredAttrErrors_selfclosing t hsc] at he
          simp at he
        · rw [requiredAttrErrors_eq t (by simpa using hsc)] at he
          simp only [List.mem_map, List.mem_filter] at he
          obtain ⟨a, _, ha⟩ := he
          exact ⟨a, ha.symm⟩
      · right
        rw [attrValueErrors_eq] at he
        split at he
        · simp only [List.mem_flatten, List.mem_map] at he
          obtain ⟨block, ⟨pr, _, hb⟩, hm⟩ := he
          subst hb
          exact ⟨pr.2, pr.1, attrPairErrors_shape t.name pr e hm⟩
        · simp at he
    · simp at he

/-- Every warning of one schema-pass token is the unsupported-tag message
    of that token. -/
theorem ssmlTagChecks_warnings_shape (t : STag) (w : String)
    (hw : w ∈ (ssmlTagChecks t).2) : w = unsupportedMsg t.name := by
  unfold ssmlTagChecks at hw
  split at hw
  · simp at hw
  · split at hw
    · simp at hw
    · simp at hw
      exact hw

/-- Every error of the well-formedness loop is an unexpected-closing, a
    mismatched-tags or an unclosed-tags message. -/
theorem xmlLoop_shape :
    ∀ (toks : List Tag) (stk : List (List Char)) (e : String), e ∈ xmlLoop toks stk →
      (∃ f, e = unexpectedClosingMsg f) ∨ (∃ a f, e = mismatchedMsg a f) ∨
        ∃ l, e = unclosedMsg l := by
  intro toks
  induction toks with
  | nil =>
    intro stk e he
    unfold xmlLoop at he
    split at he
    · simp at he
    · simp at he
      exact Or.inr (Or.inr ⟨stk.reverse, he⟩)
  | cons t ts ih =>
    intro stk e he
    unfold xmlLoop at he
    split at he
    · exact ih stk e he
    · split at he
      · cases stk with
        | nil =>
          simp only [List.mem_cons] at he
          rcases he with he | he
          · exact Or.inl ⟨t.full, he⟩
          · exact ih [] e he
        | cons lastTag stack2 =>
          simp only at he
          split at he
          · exact ih stack2 e he
          · simp only [List.mem_cons] at he
            rcases he with he | he
            · exact Or.inr (Or.inl ⟨lastTag, t.full, he⟩)
            · exact ih stack2 e he
      · exact ih (t.name :: stk) e he

/-- C1: for every input document, the validity flag of the returned
    report is exactly the emptiness of its final errors list, however
    many warnings were emitted. -/
theorem validate_valid_iff_no_errors (d : String) :
    ((validate d).valid = (validate d).errors.isEmpty) ∧
    ((validate d).valid = true ↔ (validate d).errors = []) := by
  have h : (validate d).valid = ((validate d).errors.length == 0) := rfl
  constructor
  · rw [h, length_beq_zero_eq_isEmpty]
  · rw [h]
    simp [List.length_eq_zero]

/-- Witness: a concrete report whose validity follows from the empty
    errors list through the equivalence. -/
theorem validate_valid_iff_no_errors_witness : (validate "<speak></speak>").valid = true :=
  (validate_valid_iff_no_errors "<speak></speak>").2.mpr (by decide)

/-- C2 counterexample: on the worked example document the report does
    not have thirteen stripped characters and three tag tokens as
    claimed. -/
theorem exampleDoc_metrics_counterexample :
    ¬ ((validate exampleDoc).valid = true ∧ (validate exampleDoc).errors = [] ∧
       (validate exampleDoc).info.characterCount = 13 ∧
       (validate exampleDoc).info.tagCount = 3) := by
  decide

/-- C2 amended: the worked example document is valid with no errors,
    twelve stripped characters and four tag tokens. -/
theorem exampleDoc_report :
    (validate exampleDoc).valid = true ∧ (validate exampleDoc).errors = [] ∧
    (validate exampleDoc).info.characterCount = 12 ∧
    (validate exampleDoc).info.tagCount = 4 := by
  decide

/-- C3: the well-formedness pass processes tokens left to right with a
    stack: self-closing tokens are never pushed or popped; a closing
    token on an empty stack emits the unexpected-closing error and
    scanning continues; a closing token that differs from the popped top
    emits the mismatched-tags error and the popped frame is still
    discarded; a matching closing token just pops; an opening token
    pushes its name; and a non-empty stack at end of input emits exactly
    one error listing the still-open names in push order. -/
theorem xml_wellformedness_stack_behavior (t : Tag) (ts : List Tag)
    (stk stk2 : List (List Char)) (top : List Char) (cs : List Char) :
    (containsSub "/>".data t.full = true → listStartsWith "</".data t.full = false →
       xmlLoop (t :: ts) stk = xmlLoop ts stk) ∧
    (listStartsWith "</".data t.full = true →
       xmlLoop (t :: ts) [] = unexpectedClosingMsg t.full :: xmlLoop ts []) ∧
    (listStartsWith "</".data t.full = true → top ≠ t.name →
       xmlLoop (t :: ts) (top :: stk2) = mismatchedMsg top t.full :: xmlLoop ts stk2) ∧
    (listStartsWith "</".data t.full = true → top = t.name →
       xmlLoop (t :: ts) (top :: stk2) = xmlLoop ts stk2) ∧
    (containsSub "/>".data t.full = false → listStartsWith "</".data t.full = false →
       xmlLoop (t :: ts) stk = xmlLoop ts (t.name :: stk)) ∧
    (stk ≠ [] → xmlLoop [] stk = [unclosedMsg stk.reverse]) ∧
    (xmlStructureErrors cs = xmlLoop (structTokens cs) []) := by
  refine ⟨?_, ?_, ?_, ?_, ?_, ?_, rfl⟩
  · intro h1 h2
    have h1b : containsSub ['/', '>'] t.full = true := h1
    have h2b : listStartsWith ['<', '/'] t.full = false := h2
    conv_lhs => rw [xmlLoop.eq_def]
    simp [h1b, h2b]
  · intro h1
    have h1b : listStartsWith ['<', '/'] t.full = true := h1
    conv_lhs => rw [xmlLoop]
    simp [h1b]
  · intro h1 h2
    have h1b : listStartsWith ['<', '/'] t.full = true := h1
    conv_lhs => rw [xmlLoop]
    simp [h1b, h2]
  · intro h1 h2
    have h1b : listStartsWith ['<', '/'] t.full = true := h1
    conv_lhs => rw [xmlLoop]
    simp [h1b, h2]
  · intro h1 h2
    have h1b : containsSub ['/', '>'] t.full = false := h1
    have h2b : listStartsWith ['<', '/'] t.full = false := h2
    conv_lhs => rw [xmlLoop.eq_def]
    simp [h1b, h2b]
  · intro h1
    conv_lhs => rw [xmlLoop]
    simp [h1]

/-- Witness: each stack behavior at concrete tokens and stacks. -/
theorem xml_wellformedness_stack_behavior_witness :
    (xmlLoop [Tag.mk "<break/>".data "break".data] ["p".data]
       = xmlLoop [] ["p".data]) ∧
    (xmlLoop [Tag.mk "</b>".data "b".data] []
       = unexpectedClosingMsg "</b>".data :: xmlLoop [] []) ∧
    (xmlLoop [Tag.mk "</b>".data "b".data] ["a".data]
       = mismatchedMsg "a".data "</b>".data :: xmlLoop [] []) ∧
    (xmlLoop [Tag.mk "</b>".data "b".data] ["b".data] = xmlLoop [] []) ∧
    (xmlLoop [Tag.mk "<a>".data "a".data] [] = xmlLoop [] ["a".data]) ∧
    (xmlLoop [] ["b".data, "a".data] = [unclosedMsg ["a".data, "b".data]]) := by
  refine ⟨?_, ?_, ?_, ?_, ?_, ?_⟩
  · exact (xml_wellformedness_stack_behavior (Tag.mk "<break/>".data "break".data)
      [] ["p".data] [] [] []).1 (by decide) (by decide)
  · exact (xml_wellformedness_stack_behavior (Tag.mk "</b>".data "b".data)
      [] [] [] [] []).2.1 (by decide)
  · exact (xml_wellformedness_stack_behavior (Tag.mk "</b>".data "b".data)
      [] [] [] "a".data []).2.2.1 (by decide) (by decide)
  · exact (xml_wellformedness_stack_behavior (Tag.mk "</b>".data "b".data)
      [] [] [] "b".data []).2.2.2.1 (by decide) (by decide)
  · exact (xml_wellformedness_stack_behavior (Tag.mk "<a>".data "a".data)
      [] [] [] [] []).2.2.2.2.1 (by decide) (by decide)
  · exact (xml_wellformedness_stack_behavior (Tag.mk "<a>".data "a".data)
      [] ["b".data, "a".data] [] [] []).2.2.2.2.2.1 (by decide)

/-- C4: an opening token with an unsupported name contributes exactly one
    unsupported-tag warning and no error, and all further schema checks
    for it are skipped; the unknown-tag example document is therefore
    valid with the corresponding warning. -/
theorem unsupported_tag_warning (t : STag)
    (hopen : listStartsWith "</".data t.full = false)
    (hunsup : supportedTags.contains (String.mk t.name) = false) :
    ssmlTagChecks t = ([], [unsupportedMsg t.name]) ∧
    (validate badtagDoc).valid = true ∧
    unsupportedMsg "badtag".data ∈ (validate badtagDoc).warnings := by
  refine ⟨?_, by decide, by decide⟩
  have h2 : (⟨t.name⟩ : String) ∉ supportedTags := by simpa using hunsup
  unfold ssmlTagChecks
  simp [hopen, h2]

/-- Witness: the per-token behavior at a concrete unsupported token. -/
theorem unsupported_tag_warning_witness :
    ssmlTagChecks (STag.mk "<badtag>".data "badtag".data [])
      = ([], [unsupportedMsg "badtag".data]) :=
  (unsupported_tag_warning (STag.mk "<badtag>".data "badtag".data [])
    (by decide) (by decide)).1

/-- C5: validation is total: every input string yields a report, and
    degenerate inputs (the empty string, plain text with no markup)
    produce reports carrying the structural errors rather than any
    failure of the call. -/
theorem validate_total_on_degenerate_input :
    (∀ s : String, ∃ r : Report, validate s = r) ∧
    (validate "").errors = [startMsg, endMsg] ∧ (validate "").valid = false ∧
    (validate "Hello world").errors = [startMsg, endMsg] ∧
    (validate "Hello world").valid = false := by
  exact ⟨fun s => ⟨validate s, rfl⟩, by decide, by decide, by decide, by decide⟩

/-- C6: for a supported opening tag instance, a self-closing token is
    never checked for required attributes, a non-self-closing token gets
    one missing-required-attribute error per required attribute absent
    from its parsed double-quoted pairs, and these errors are followed by
    the attribute-value errors of the token. -/
theorem required_attribute_errors (t : STag)
    (hsup : supportedTags.contains (String.mk t.name) = true)
    (hopen : listStartsWith "</".data t.full = false) :
    (containsSub "/>".data t.full = true → requiredAttrErrors t = []) ∧
    (containsSub "/>".data t.full = false →
       requiredAttrErrors t
         = ((requiredAttributes (String.mk t.name)).filter
              (fun a => !(decide (a.data ∈ foundAttrNames t.attrs)))).map
             (fun a => missingAttrMsg a t.name)) ∧
    (ssmlTagChecks t).1 = requiredAttrErrors t ++ attrValueErrors t.name t.attrs := by
  refine ⟨requiredAttrErrors_selfclosing t, requiredAttrErrors_eq t, ?_⟩
  have h2 : (⟨t.name⟩ : String) ∈ supportedTags := by simpa using hsup
  unfold ssmlTagChecks
  simp [hopen, h2]

/-- Witness: a bare phoneme token gets one error per required attribute,
    a self-closing phoneme token gets none. -/
theorem required_attribute_errors_witness :
    requiredAttrErrors (STag.mk "<phoneme>".data "phoneme".data [])
      = [missingAttrMsg "alphabet" "phoneme".data,
         missingAttrMsg "ph" "phoneme".data] ∧
    requiredAttrErrors (STag.mk "<phoneme/>".data "phoneme".data "/".data) = [] := by
  constructor
  · rw [(required_attribute_errors (STag.mk "<phoneme>".data "phoneme".data [])
      (by decide) (by decide)).2.1 (by decide)]
    decide
  · exact (required_attribute_errors (STag.mk "<phoneme/>".data "phoneme".data "/".data)
      (by decide) (by decide)).1 (by decide)

/-- C7: a constraint accepts a value exactly when some alternative does
    (a literal equal to it or a pattern fully matching it); the
    bad-attribute-value example document is invalid with the
    invalid-value error naming the value, the attribute and the tag. -/
theorem attr_value_acceptance :
    (∀ (c : Constraint) (v : List Char),
       isValidValue c v = true ↔ ∃ o ∈ c.alts, optMatches o v = true) ∧
    (validate breakInvalidDoc).valid = false ∧
    invalidValueMsg "invalid-value".data "strength".data "break".data
      ∈ (validate breakInvalidDoc).errors := by
  refine ⟨?_, by decide, by decide⟩
  intro c v
  cases c with
  | options os => simp [isValidValue, Constraint.alts, List.any_eq_true]
  | single p => simp [isValidValue, Constraint.alts, optMatches]

/-- Witness: acceptance of a concrete value through the equivalence. -/
theorem attr_value_acceptance_witness :
    ∃ o ∈ (Constraint.options [VOpt.lit "weak"]).alts, optMatches o "weak".data = true :=
  (attr_value_acceptance.1 (Constraint.options [VOpt.lit "weak"]) "weak".data).mp
    (by decide)

/-- C8: no pass short-circuits another: the errors of every report are
    the concatenation of the three error-producing passes in order, and
    the unterminated example accumulates both the missing-closing-root
    error and the unclosed-tag error for the root. -/
theorem all_passes_accumulate :
    (∀ s : String,
       (validate s).errors
         = basicStructureErrors s.data ++ xmlStructureErrors s.data ++
             ssmlTagsErrors s.data) ∧
    (validate unterminatedDoc).valid = false ∧
    endMsg ∈ (validate unterminatedDoc).errors ∧
    unclosedMsg ["speak".data] ∈ (validate unterminatedDoc).errors := by
  exact ⟨fun s => rfl, by decide, by decide, by decide⟩

/-- The deep-nesting warning never comes from the schema pass. -/
theorem deep_not_in_ssml_warnings (cs : List Char) :
    deepNestingMsg ∉ ssmlTagsWarnings cs := by
  intro hmem
  unfold ssmlTagsWarnings at hmem
  simp only [List.mem_flatten, List.mem_map] at hmem
  obtain ⟨block, ⟨t, _, hb⟩, hm⟩ := hmem
  subst hb
  exact unsupported_ne_deep t.name (ssmlTagChecks_warnings_shape t _ hm).symm

/-- The deep-nesting warning is in the heuristic warnings exactly when
    the maximum depth exceeds five. -/
theorem deep_mem_common_iff (cs : List Char) :
    deepNestingMsg ∈ commonIssueWarnings cs ↔ 5 < getMaxNesting cs := by
  by_cases h1 : (splitOnBreaks cs.length cs).any
      (fun seg => 500 < (textContent seg).length) = true <;>
  by_cases h2 : 5 < getMaxNesting cs <;>
  by_cases h3 : containsSub "><".data cs = true <;>
  simp_all [commonIssueWarnings,
    show deepNestingMsg ≠ longSegmentMsg from by decide,
    show deepNestingMsg ≠ emptyTagsMsg from by decide]

/-- C9: the deep-nesting warning appears in the report exactly when the
    depth replay over the tokenizer (up on opening, down on closing,
    self-closing ignored) exceeds five; six nested supported levels carry
    it, five do not. -/
theorem deep_nesting_warning_iff :
    (∀ s : String, deepNestingMsg ∈ (validate s).warnings ↔ 5 < getMaxNesting s.data) ∧
    deepNestingMsg ∈ (validate deepDoc6).warnings ∧
    deepNestingMsg ∉ (validate deepDoc5).warnings := by
  refine ⟨?_, by decide, by decide⟩
  intro s
  have hw : (validate s).warnings
      = ssmlTagsWarnings s.data ++ commonIssueWarnings s.data := rfl
  rw [hw, List.mem_append]
  simp [deep_not_in_ssml_warnings, deep_mem_common_iff]

/-- Witness: the equivalence instantiated at the six-level document. -/
theorem deep_nesting_warning_iff_witness :
    deepNestingMsg ∈ (validate deepDoc6).warnings :=
  (deep_nesting_warning_iff.1 deepDoc6).mpr (by decide)

/-- The missing-opening-root error never comes from the well-formedness
    pass. -/
theorem start_not_in_xml_errors (cs : List Char) :
    startMsg ∉ xmlStructureErrors cs := by
  intro hmem
  rcases xmlLoop_shape _ _ _ hmem with ⟨f, hf⟩ | ⟨a, f, hf⟩ | ⟨l, hl⟩
  · exact unexpected_ne_start f hf.symm
  · exact mismatched_ne_start a f hf.symm
  · exact unclosed_ne_start l hl.symm

/-- The missing-opening-root error never comes from the schema pass. -/
theorem start_not_in_ssml_errors (cs : List Char) :
    startMsg ∉ ssmlTagsErrors cs := by
  intro hmem
  unfold ssmlTagsErrors at hmem
  simp only [List.mem_flatten, List.mem_map] at hmem
  obtain ⟨block, ⟨t, _, hb⟩, hm⟩ := hmem
  subst hb
  rcases ssmlTagChecks_errors_shape t _ hm with ⟨a, ha⟩ | ⟨v, a, ha⟩
  · exact missing_ne_start a t.name ha.symm
  · exact invalid_ne_start v a t.name ha.symm

/-- The missing-opening-root error is in the root-structure pass exactly
    when the trimmed document does not begin with the six root-opener
    characters. -/
theorem start_mem_basic_iff (cs : List Char) :
    startMsg ∈ basicStructureErrors cs ↔
      listStartsWith "<speak".data (trimChars cs) = false := by
  by_cases h1 : listStartsWith "<speak".data (trimChars cs) = true <;>
  by_cases h2 : listEndsWith "</speak>".data (trimChars cs) = true <;>
  by_cases h3 : speakOpenCount cs = speakCloseCount cs <;>
  by_cases h4 : speakOpenCount cs > 1 <;>
  simp_all [basicStructureErrors,
    show startMsg ≠ endMsg from by decide,
    show startMsg ≠ unbalancedMsg from by decide,
    show startMsg ≠ multipleMsg from by decide]

/-- C10: the opening check of the root-structure pass is a bare literal
    six-character head test, so the missing-opening-root error appears
    exactly when the trimmed document does not start with those
    characters; a document whose first tag name merely begins with the
    root name gets no such error. -/
theorem missing_open_error_iff :
    (∀ s : String,
       startMsg ∈ (validate s).errors ↔
         listStartsWith "<speak".data (trimChars s.data) = false) ∧
    startMsg ∉ (validate speakerDoc).errors := by
  refine ⟨?_, by decide⟩
  intro s
  have he : (validate s).errors
      = basicStructureErrors s.data ++ xmlStructureErrors s.data ++
          ssmlTagsErrors s.data := rfl
  rw [he]
  simp [List.mem_append, start_not_in_xml_errors, start_not_in_ssml_errors,
    start_mem_basic_iff]

/-- Witness: the equivalence instantiated at a document with no markup. -/
theorem missing_open_error_iff_witness :
    startMsg ∈ (validate "plain text").errors :=
  (missing_open_error_iff.1 "plain text").mpr (by decide)
